import Mathlib

/-!
Verification of the puppeteer-batch scraping service (server.js).

The per-URL pipeline and bounded-concurrency batch scheduler are embedded
shallowly: pure helpers become Lean functions, and every external
collaborator (the JS URL parser, the APIVoid reputation service, the
Puppeteer render, the ScraperAPI proxy) is represented by an explicit
outcome value fed to the embedded control flow, so claims quantify over
all collaborator behaviours.  Machine strings are Lean Strings; lengths
and case folding act on the underlying character lists.
-/

/-- Configuration constants from server.js. -/
def MAX_URLS_PER_REQUEST : Nat := 50

/-- Concurrency bound from server.js. -/
def CONCURRENCY : Nat := 2

/-- Minimum text length treated as trustworthy content (MIN_TEXT_FOR_OK). -/
def MIN_TEXT_FOR_OK : Nat := 300

/-- Boolean prefix test on character lists, mirroring string comparison. -/
def isPrefixChars : List Char → List Char → Bool
  | [], _ => true
  | _ :: _, [] => false
  | a :: as, b :: bs => a == b && isPrefixChars as bs

/-- Boolean substring test on character lists: does the needle occur
contiguously inside the haystack?  This models JavaScript
String.prototype.includes and unanchored regex tests. -/
def isSubChars (needle : List Char) : List Char → Bool
  | [] => isPrefixChars needle []
  | c :: rest => isPrefixChars needle (c :: rest) || isSubChars needle rest

/-- Lower-case a character list (models String.prototype.toLowerCase on the
code points the service actually handles). -/
def lowerChars (l : List Char) : List Char := l.map Char.toLower

/-- Case-insensitive substring test on strings, modelling a case-insensitive
regex such as /domain name is not valid/i applied with .test. -/
def containsCI (hay needle : String) : Bool :=
  isSubChars (lowerChars needle.data) (lowerChars hay.data)

/-- JavaScript truthiness fallback on strings: a || b keeps a unless it is
the empty string. -/
def jsOr (a b : String) : String := if a = "" then b else a

/-- Strong bot-wall phrases from looksLikeCaptcha (server.js lines 63-71). -/
def strongPhrases : List String :=
  ["attention required", "access denied", "cloudflare", "unusual traffic",
   "verify you are human", "bot detected", "press and hold"]

/-- Generic CAPTCHA-mention terms from looksLikeCaptcha (server.js line 74). -/
def genericPhrases : List String :=
  ["captcha", "hcaptcha", "recaptcha", "are you a robot"]

/-- Helper matching strong.some((n) => tt.includes(n) || t.includes(n)) on
the lower-cased text t and title tt. -/
def strongHit (text title : String) : Bool :=
  strongPhrases.any (fun n =>
    isSubChars n.data (lowerChars title.data) || isSubChars n.data (lowerChars text.data))

/-- Helper matching generic.some((n) => tt.includes(n) || t.includes(n)) on
the lower-cased text t and title tt. -/
def genericHit (text title : String) : Bool :=
  genericPhrases.any (fun n =>
    isSubChars n.data (lowerChars title.data) || isSubChars n.data (lowerChars text.data))

/-- Embedding of looksLikeCaptcha (server.js lines 59-79): the content
quality classifier.  The strong phrases flag regardless of length; a
generic CAPTCHA mention flags only together with text shorter than
MIN_TEXT_FOR_OK characters.  The length test is on the raw text argument. -/
def looksLikeCaptcha (text : String) (title : String) : Bool :=
  if strongHit text title then true
  else genericHit text title && decide (text.length < MIN_TEXT_FOR_OK)

/-- Result of the reputation check, the tagged variant returned by
apivoidCheck: either ok, or fail with a reason and a human-readable text. -/
inductive ApiCheckResult where
  | ok : ApiCheckResult
  | fail (reason : String) (text : String) : ApiCheckResult
deriving DecidableEq, Repr

/-- Outcome of the network exchange with the APIVoid service, as seen by the
axios call in apivoidCheck: either the request threw (transport error or
axios timeout), or a response arrived with an HTTP status, an optional
error field, and the two boolean payload fields (coerced with !! in the
source, so already Bool here). -/
inductive ApivoidOutcome where
  | transportError (msg : String) : ApivoidOutcome
  | response (status : Nat) (error : Option String)
      (aRecordsFound : Bool) (parkedDomain : Bool) : ApivoidOutcome
deriving DecidableEq, Repr

/-- JavaScript truthiness of the optional error field data?.error: present
and not the empty string. -/
def errTruthy (e : Option String) : Bool := e.getD "" != ""

/-- Embedding of apivoidCheck (server.js lines 106-185).  The host argument
is the (nullable) result of hostOnly; JS !host is also true for the empty
string.  The outcome argument stands for what the network returned. -/
def apivoidCheck (apivoidKey : String) (host : Option String)
    (outcome : ApivoidOutcome) : ApiCheckResult :=
  if apivoidKey = "" then
    .fail "apivoid_api_key" "APIVoid API key is missing."
  else if host = none || host = some "" then
    .fail "wrong_format" "Host could not be derived from the URL."
  else
    match outcome with
    | .transportError msg =>
        .fail "apivoid_api_key" ("APIVoid request failed: " ++ msg)
    | .response status error aRecordsFound parkedDomain =>
        if decide (400 ≤ status) || errTruthy error then
          let msg := if errTruthy error then error.getD ""
                     else "APIVoid HTTP " ++ toString status
          if containsCI msg "domain name is not valid" then
            .fail "wrong_format"
              ("The input url domain is not valid for APIVoid (" ++ msg ++ ").")
          else if containsCI msg "insufficient" || containsCI msg "credit" ||
                  containsCI msg "api key" || containsCI msg "unauthorized" ||
                  containsCI msg "forbidden" then
            .fail "apivoid_api_key" msg
          else
            .fail "apivoid_api_key" msg
        else
          if !aRecordsFound then
            .fail "a_records_not_found"
              "The domain appeared to be offline on the Apivoid check."
          else if parkedDomain then
            .fail "parked_domain"
              "The domain appeared to be a parked domain on the Apivoid check."
          else
            .ok

/-- Shape of a fetch result shared by the Puppeteer fetch and the ScraperAPI
fallback fetch inside processOne. -/
structure FetchResult where
  ok : Bool
  reason : String
  text : String
  httpStatus : Option Nat
  title : String
  content : String
deriving DecidableEq, Repr

/-- Outcome of the network exchange with ScraperAPI as seen by the axios
call in scraperApiFetch: either the request threw, or a response arrived.
The title and text fields of a response stand for the values the source
derives from the raw HTML body (title-tag match and htmlToText, both
truncated); that HTML-to-text extraction is kept abstract because no claim
depends on its internals. -/
inductive ScraperOutcome where
  | transportError (msg : String) : ScraperOutcome
  | response (status : Nat) (title : String) (text : String) : ScraperOutcome
deriving DecidableEq, Repr

/-- Embedding of scraperApiFetch (server.js lines 187-230). -/
def scraperApiFetch (scraperKey : String) (outcome : ScraperOutcome) : FetchResult :=
  if scraperKey = "" then
    { ok := false, reason := "scraperapi", text := "ScraperAPI key is missing.",
      httpStatus := none, title := "", content := "" }
  else
    match outcome with
    | .transportError msg =>
        { ok := false, reason := "scraperapi",
          text := "ScraperAPI request failed: " ++ msg,
          httpStatus := none, title := "", content := "" }
    | .response status title text =>
        if decide (400 ≤ status) then
          { ok := false, reason := "scraperapi",
            text := "ScraperAPI HTTP " ++ toString status,
            httpStatus := some status, title := title, content := "" }
        else
          { ok := true, reason := "", text := "",
            httpStatus := some status, title := title, content := text }

/-- Process configuration read once at startup: the two service credentials
(APIVOID_KEY and SCRAPERAPI_KEY, empty string when absent). -/
structure Config where
  apivoidKey : String
  scraperKey : String
deriving DecidableEq, Repr

/-- Behaviour of the external collaborators during one run of processOne:
the JS URL parser results (normalizeUrl and hostOnly), the APIVoid
exchange, the outcome of the 60s race around puppeteerFetch (an Except
error is a thrown message, including "timeout" when the deadline fired),
and the outcome of the 60s race around scraperApiFetch (none means the
deadline fired before the fetch settled; scraperApiFetch itself never
throws, so that race can only reject with the timeout error). -/
structure PipelineEnv where
  normalized : Option String
  host : Option String
  apivoid : ApivoidOutcome
  render : Except String FetchResult
  fallback : Option ScraperOutcome
deriving Repr

/-- Terminal result object built by processOne.  The wall-clock ms field of
the source is omitted: it is real time, outside the embedding, and no claim
depends on it. -/
structure UrlResult where
  status : String
  url_input : String
  failure_reason : String
  failure_text : String
  scraped_text : String
deriving DecidableEq, Repr

/-- Value of the pptr variable after the try/catch around
hardCap(puppeteerFetch(url)) (server.js lines 371-376): a thrown message,
timeout included, is caught and folded into a failed FetchResult. -/
def renderResultOf (env : PipelineEnv) : FetchResult :=
  match env.render with
  | .error msg =>
      { ok := false, reason := "offline_on_puppeteer", text := msg,
        httpStatus := none, title := "", content := "" }
  | .ok fr => fr

/-- Embedding of processOne (server.js lines 331-441), the per-URL pipeline.
An Except.error value models an exception escaping processOne: the only
uncaught path is the 60s timeout racing the ScraperAPI fallback at line
406, which has no surrounding try/catch. -/
def processOne (cfg : Config) (env : PipelineEnv) (inputUrl : String) :
    Except String UrlResult :=
  match env.normalized with
  | none =>
      .ok { status := "failure", url_input := inputUrl,
            failure_reason := "wrong_format",
            failure_text :=
              "The input url `" ++ inputUrl ++ "` is not properly formatted.",
            scraped_text := "" }
  | some _url =>
    match apivoidCheck cfg.apivoidKey env.host env.apivoid with
    | .fail reason text =>
        .ok { status := "failure", url_input := inputUrl,
              failure_reason := reason, failure_text := text,
              scraped_text := "" }
    | .ok =>
      let pptr := renderResultOf env
      if !pptr.ok then
        .ok { status := "failure", url_input := inputUrl,
              failure_reason := "offline_on_puppeteer",
              failure_text := jsOr pptr.text ("The webpage did not load."),
              scraped_text := "" }
      else if !looksLikeCaptcha pptr.content pptr.title then
        .ok { status := "success", url_input := inputUrl,
              failure_reason := "", failure_text := "",
              scraped_text := pptr.content }
      else
        match env.fallback with
        | none => .error "timeout"
        | some outcome =>
          let viaProxy := scraperApiFetch cfg.scraperKey outcome
          if !viaProxy.ok then
            .ok { status := "failure", url_input := inputUrl,
                  failure_reason := jsOr viaProxy.reason ("scraperapi"),
                  failure_text := jsOr viaProxy.text ("ScraperAPI failed."),
                  scraped_text := "" }
          else if looksLikeCaptcha viaProxy.content viaProxy.title then
            .ok { status := "failure", url_input := inputUrl,
                  failure_reason := "scraperapi",
                  failure_text := "ScraperAPI returned CAPTCHA/short content.",
                  scraped_text := "" }
          else
            .ok { status := "success", url_input := inputUrl,
                  failure_reason := "", failure_text := "",
                  scraped_text := viaProxy.content }

/-- JSON-ish values that can appear as elements of the urls array in the
request body.  The handler never checks element types, so non-string
elements can reach the pipelines; two constructors are enough to express
that. -/
inductive JVal where
  | jstr (s : String) : JVal
  | jnum (n : Int) : JVal
deriving DecidableEq, Repr

/-- Predicate (decidable) telling whether a JSON value is a string. -/
def JVal.isStr : JVal → Bool
  | .jstr _ => true
  | .jnum _ => false

/-- Shape of req.body?.urls as the handler sees it: either not an array at
all (missing field, non-object body, non-array value), or an array of
JSON values. -/
inductive BodyUrls where
  | notArray : BodyUrls
  | array (items : List JVal) : BodyUrls
deriving DecidableEq, Repr

/-- Accumulator form of insertion-ordered deduplication. -/
def dedupFirstAux {α : Type} [DecidableEq α] (seen : List α) : List α → List α
  | [] => []
  | x :: xs =>
      if x ∈ seen then dedupFirstAux seen xs
      else x :: dedupFirstAux (x :: seen) xs

/-- Embedding of the spread of a JS Set built from a list (server.js line
510): duplicates collapse by exact equality and the first occurrence keeps
its position, which is exactly what Set insertion order gives. -/
def dedupFirst {α : Type} [DecidableEq α] (l : List α) : List α :=
  dedupFirstAux [] l

/-- Decision taken by the batch-scrape handler before any pipeline runs
(server.js lines 505-513): reject with a 400 error text, or accept and
schedule one pipeline per unique element. -/
inductive BatchDecision where
  | rejected (error : String) : BatchDecision
  | accepted (unique : List JVal) : BatchDecision
deriving DecidableEq, Repr

/-- Embedding of the validation prefix of app.post handler for batch-scrape:
a non-array body is rejected, then the deduplicated list is rejected when
it exceeds MAX_URLS_PER_REQUEST, otherwise the unique elements are
scheduled.  Element types are never inspected. -/
def batchScrape (body : BodyUrls) : BatchDecision :=
  match body with
  | .notArray => .rejected "Body must be \x7b urls: string[] \x7d"
  | .array items =>
      let unique := dedupFirst items
      if decide (MAX_URLS_PER_REQUEST < unique.length) then
        .rejected ("Too many URLs; max " ++ toString MAX_URLS_PER_REQUEST ++ ".")
      else
        .accepted unique

/-- Result list assembled by Promise.all over the unique URLs of a batch of
strings (server.js line 516): one processOne run per unique input, results
written by input position, not by completion order.  The env family gives
each URL its collaborator behaviour. -/
def batchResults (cfg : Config) (env : String → PipelineEnv)
    (l : List String) : List (Except String UrlResult) :=
  (dedupFirst l).map (fun u => processOne cfg (env u) u)

/-- State of the limiter closure (server.js lines 82-103): the counter of
in-flight pipeline runs and the FIFO queue of waiting tasks (identified by
arbitrary ids). -/
structure LimState where
  active : Nat
  q : List Nat
deriving DecidableEq, Repr

/-- Events the limiter reacts to: a new task is submitted, or a running
task completes (the finally branch calling next()). -/
inductive LimEvent where
  | submit (id : Nat) : LimEvent
  | finish : LimEvent
deriving DecidableEq, Repr

/-- One step of the limiter: on submit, run immediately when active < limit
else append to the queue; on finish, decrement active and, when the queue
is non-empty, shift its head and run it (which increments active again).
The second component is the task that starts running at this step, if any. -/
def limStep (limit : Nat) (s : LimState) (e : LimEvent) : LimState × Option Nat :=
  match e with
  | .submit id =>
      if s.active < limit then ({ active := s.active + 1, q := s.q }, some id)
      else ({ active := s.active, q := s.q ++ [id] }, none)
  | .finish =>
      match s.q with
      | [] => ({ active := s.active - 1, q := [] }, none)
      | t :: rest => ({ active := s.active - 1 + 1, q := rest }, some t)

/-- Limiter state reached from the initial state (0 active, empty queue)
after a sequence of events. -/
def limRun (limit : Nat) (evs : List LimEvent) : LimState :=
  evs.foldl (fun s e => (limStep limit s e).1) { active := 0, q := [] }

/-- Reason component of a reputation-check result (none on ok). -/
def reasonOf : ApiCheckResult → Option String
  | .ok => none
  | .fail reason _ => some reason

/-- Classifier decision written from the spec's words: blocked iff a strong
bot-wall phrase occurs case-insensitively in either field regardless of
length, or a generic CAPTCHA term appears in either field and the text
length is below 300.  Kept separate from looksLikeCaptcha so the two can
be compared. -/
def classifierSpecBlocked (text title : String) : Bool :=
  strongPhrases.any (fun p => containsCI text p || containsCI title p) ||
  (genericPhrases.any (fun p => containsCI text p || containsCI title p) &&
    decide (text.length < 300))

/-- Error text inspected by apivoidCheck's error branch: the truthy error
field, else the fallback naming the HTTP status (the let msg binding of
server.js line 132). -/
def apivoidMsg (status : Nat) (error : Option String) : String :=
  if errTruthy error then error.getD "" else "APIVoid HTTP " ++ toString status

/-- Claimed exactly-one invariant over a terminal result, written from the
spec's words: either the scraped text is non-empty, or both failure fields
are non-empty — one or the other, never both, never neither. -/
def claimedExclusive (r : UrlResult) : Bool :=
  (decide (r.scraped_text ≠ "") && decide (r.failure_reason = "") &&
    decide (r.failure_text = "")) ||
  (decide (r.scraped_text = "") && decide (r.failure_reason ≠ "") &&
    decide (r.failure_text ≠ ""))

/-- Concrete wrong_format terminal result produced by a run on the input
"foobar", used to instantiate the terminal field discipline. -/
def wrongFormatSample : UrlResult :=
  { status := "failure", url_input := "foobar", failure_reason := "wrong_format",
    failure_text := "The input url `foobar` is not properly formatted.",
    scraped_text := "" }

/-- Index of the first occurrence of an element in a list (length of the
list when absent). -/
def firstIdx {α : Type} [DecidableEq α] : List α → α → Nat
  | [], _ => 0
  | x :: xs, u => if x = u then 0 else firstIdx xs u + 1

/-- Over phrases that lower-casing leaves unchanged, scanning with the
phrase as written equals the case-insensitive scan of the spec reading. -/
theorem any_scan_ci (text title : String) :
    ∀ (ps : List String), (∀ p ∈ ps, lowerChars p.data = p.data) →
      ps.any (fun n =>
          isSubChars n.data (lowerChars title.data) ||
          isSubChars n.data (lowerChars text.data)) =
      ps.any (fun p => containsCI text p || containsCI title p) := by
  intro ps hp
  induction ps with
  | nil => rfl
  | cons a as ih =>
      have ha : lowerChars a.data = a.data := hp a (List.mem_cons_self a as)
      have hrest : ∀ p ∈ as, lowerChars p.data = p.data :=
        fun p h => hp p (List.mem_cons_of_mem a h)
      simp only [List.any_cons, ih hrest, containsCI, ha]
      congr 1
      exact Bool.or_comm _ _

/-- C5: the content-quality classifier is a pure function of (text, title),
case-insensitive; it flags as blocked iff a strong bot-wall phrase occurs
in either field regardless of length, or a generic CAPTCHA term appears in
either field and the text length is below 300, and is not blocked in all
other cases.  Stated as extensional equality between looksLikeCaptcha and
the decision written from the spec's words. -/
theorem looksLikeCaptcha_eq_spec (text title : String) :
    looksLikeCaptcha text title = classifierSpecBlocked text title := by
  have hs : ∀ p ∈ strongPhrases, lowerChars p.data = p.data := by decide
  have hg : ∀ p ∈ genericPhrases, lowerChars p.data = p.data := by decide
  unfold looksLikeCaptcha classifierSpecBlocked strongHit genericHit MIN_TEXT_FOR_OK
  rw [any_scan_ci text title strongPhrases hs, any_scan_ci text title genericPhrases hg]
  cases strongPhrases.any (fun p => containsCI text p || containsCI title p) <;> simp

/-- C10: with no strong bot-wall phrase present, the 300-character shortness
threshold is evaluated on the text length only: text of length at least
MIN_TEXT_FOR_OK is never flagged, even when the title carries a generic
CAPTCHA term, while shorter text with a generic term in either field is
flagged. -/
theorem generic_threshold_on_text_only (text title : String)
    (h : strongHit text title = false) :
    (MIN_TEXT_FOR_OK ≤ text.length → looksLikeCaptcha text title = false) ∧
    (text.length < MIN_TEXT_FOR_OK → genericHit text title = true →
      looksLikeCaptcha text title = true) := by
  unfold looksLikeCaptcha
  rw [h]
  constructor
  · intro hlen
    have : ¬ (text.length < MIN_TEXT_FOR_OK) := Nat.not_lt.mpr hlen
    simp [this]
  · intro hlen hgen
    simp [hlen, hgen]

set_option maxRecDepth 8192 in
/-- Witness for C10 at concrete inputs: a 300-character text whose title
mentions a CAPTCHA is not flagged, and a 1-character text with the same
title is flagged. -/
theorem generic_threshold_on_text_only_witness :
    strongHit (String.mk (List.replicate 300 'a')) "please enter the captcha" = false ∧
    looksLikeCaptcha (String.mk (List.replicate 300 'a')) "please enter the captcha" = false ∧
    strongHit "x" "please enter the captcha" = false ∧
    looksLikeCaptcha "x" "please enter the captcha" = true := by
  have h1 : strongHit (String.mk (List.replicate 300 'a')) "please enter the captcha" = false := by
    decide
  have h2 : strongHit "x" "please enter the captcha" = false := by decide
  refine ⟨h1, ?_, h2, ?_⟩
  · exact (generic_threshold_on_text_only (String.mk (List.replicate 300 'a'))
      "please enter the captcha" h1).1 (by decide)
  · exact (generic_threshold_on_text_only "x" "please enter the captcha" h2).2
      (by decide) (by decide)

/-- C6: with the credential present and a usable host, the checker
classifies first-match: a transport/timeout error gives apivoid_api_key;
an HTTP status at least 400 or a truthy error field gives wrong_format
exactly when the error text contains "domain name is not valid"
case-insensitively and apivoid_api_key otherwise (whether or not the
insufficient/credit/api key/unauthorized/forbidden pattern matches); on a
success shape, a_records_found false gives a_records_not_found for either
value of parked_domain, else parked_domain true gives parked_domain, else
ok. -/
theorem apivoid_classification (key h : String) (hk : key ≠ "") (hh : h ≠ "") :
    (∀ msg, reasonOf (apivoidCheck key (some h) (.transportError msg)) =
      some "apivoid_api_key") ∧
    (∀ status error ar pd, (decide (400 ≤ status) || errTruthy error) = true →
      reasonOf (apivoidCheck key (some h) (.response status error ar pd)) =
        (if containsCI (apivoidMsg status error) "domain name is not valid"
         then some "wrong_format" else some "apivoid_api_key")) ∧
    (∀ status error pd, (decide (400 ≤ status) || errTruthy error) = false →
      reasonOf (apivoidCheck key (some h) (.response status error false pd)) =
        some "a_records_not_found") ∧
    (∀ status error, (decide (400 ≤ status) || errTruthy error) = false →
      reasonOf (apivoidCheck key (some h) (.response status error true true)) =
        some "parked_domain") ∧
    (∀ status error, (decide (400 ≤ status) || errTruthy error) = false →
      reasonOf (apivoidCheck key (some h) (.response status error true false)) =
        .none) := by
  refine ⟨?_, ?_, ?_, ?_, ?_⟩
  · intro msg
    simp [apivoidCheck, hk, hh, reasonOf]
  · intro status error ar pd hbr
    simp only [apivoidCheck, apivoidMsg]
    rw [if_neg hk, if_neg (by simp [hh]), if_pos hbr]
    split <;> split <;> simp [reasonOf]
  · intro status error pd hbr
    simp [apivoidCheck, hk, hh, hbr, reasonOf]
  · intro status error hbr
    simp [apivoidCheck, hk, hh, hbr, reasonOf]
  · intro status error hbr
    simp [apivoidCheck, hk, hh, hbr, reasonOf]

/-- Witness for C6 at a concrete key, host and the three response shapes. -/
theorem apivoid_classification_witness :
    reasonOf (apivoidCheck "k" (some "example.com") (.transportError "socket hang up")) =
      some "apivoid_api_key" ∧
    reasonOf (apivoidCheck "k" (some "example.com")
      (.response 200 (some "Domain name is not valid") true false)) =
      some "wrong_format" ∧
    reasonOf (apivoidCheck "k" (some "example.com")
      (.response 403 none true false)) = some "apivoid_api_key" ∧
    reasonOf (apivoidCheck "k" (some "example.com")
      (.response 200 none false true)) = some "a_records_not_found" ∧
    reasonOf (apivoidCheck "k" (some "example.com")
      (.response 200 none true true)) = some "parked_domain" ∧
    reasonOf (apivoidCheck "k" (some "example.com")
      (.response 200 none true false)) = .none := by
  have hk : ("k" : String) ≠ "" := by decide
  have hh : ("example.com" : String) ≠ "" := by decide
  have hc := apivoid_classification "k" "example.com" hk hh
  refine ⟨hc.1 "socket hang up", ?_, ?_, ?_, ?_, ?_⟩
  · have := hc.2.1 200 (some "Domain name is not valid") true false (by decide)
    rw [this]
    decide
  · have := hc.2.1 403 none true false (by decide)
    rw [this]
    decide
  · exact hc.2.2.1 200 none true (by decide)
  · exact hc.2.2.2.1 200 none (by decide)
  · exact hc.2.2.2.2 200 none (by decide)

/-- Appending to a non-empty string keeps it non-empty. -/
theorem append_ne_empty (s t : String) (h : s ≠ "") : s ++ t ≠ "" := by
  intro hc
  apply h
  have h1 : (s ++ t).length = 0 := by rw [hc]; rfl
  rw [String.length_append] at h1
  have h2 : s.length = 0 := by omega
  cases s with
  | mk data =>
      cases data with
      | nil => rfl
      | cons c cs => simp [String.length, List.length] at h2

/-- The JS fallback a || b is non-empty when the fallback b is. -/
theorem jsOr_ne_empty (a b : String) (h : b ≠ "") : jsOr a b ≠ "" := by
  unfold jsOr
  split
  · exact h
  · assumption

/-- Every failure produced by apivoidCheck carries a non-empty reason and a
non-empty text. -/
theorem apivoidCheck_fail_fields (key : String) (host : Option String)
    (outcome : ApivoidOutcome) (reason text : String)
    (h : apivoidCheck key host outcome = .fail reason text) :
    reason ≠ "" ∧ text ≠ "" := by
  by_cases hk : key = ""
  · simp [apivoidCheck, hk] at h
    obtain ⟨rfl, rfl⟩ := h
    exact ⟨by decide, by decide⟩
  · by_cases hhost : (host = none || host = some "") = true
    · simp [apivoidCheck, hk, hhost] at h
      obtain ⟨rfl, rfl⟩ := h
      exact ⟨by decide, by decide⟩
    · cases outcome with
      | transportError msg =>
          simp [apivoidCheck, hk, hhost] at h
          obtain ⟨rfl, rfl⟩ := h
          exact ⟨by decide, append_ne_empty _ _ (by decide)⟩
      | response status error aRecordsFound parkedDomain =>
          by_cases hbr : (decide (400 ≤ status) || errTruthy error) = true
          · cases herr : errTruthy error with
            | true =>
                have hne : error.getD "" ≠ "" := by
                  unfold errTruthy at herr
                  simpa using herr
                by_cases hdom :
                    containsCI (error.getD "") "domain name is not valid" = true
                · simp [apivoidCheck, hk, hhost, hbr, herr, hdom] at h
                  obtain ⟨rfl, rfl⟩ := h
                  exact ⟨by decide, append_ne_empty _ _ (append_ne_empty _ _ (by decide))⟩
                · simp [apivoidCheck, hk, hhost, hbr, herr, hdom] at h
                  obtain ⟨rfl, rfl⟩ := h
                  exact ⟨by decide, hne⟩
            | false =>
                have hst : 400 ≤ status := by
                  rw [herr] at hbr
                  simpa using hbr
                by_cases hdom :
                    containsCI ("APIVoid HTTP " ++ toString status)
                      "domain name is not valid" = true
                · simp [apivoidCheck, hk, hhost, herr, hst, hdom] at h
                  obtain ⟨rfl, rfl⟩ := h
                  exact ⟨by decide, append_ne_empty _ _ (append_ne_empty _ _ (by decide))⟩
                · simp [apivoidCheck, hk, hhost, herr, hst, hdom] at h
                  obtain ⟨rfl, rfl⟩ := h
                  exact ⟨by decide, append_ne_empty _ _ (by decide)⟩
          · cases aRecordsFound <;> cases parkedDomain <;>
              simp [apivoidCheck, hk, hhost, hbr] at h <;>
              obtain ⟨rfl, rfl⟩ := h <;>
              exact ⟨by decide, by decide⟩

/-- Every failed fetch produced by scraperApiFetch has the reason
"scraperapi", a non-empty text, and empty content. -/
theorem scraperApiFetch_fail_fields (key : String) (outcome : ScraperOutcome)
    (h : (scraperApiFetch key outcome).ok = false) :
    (scraperApiFetch key outcome).reason = "scraperapi" ∧
    (scraperApiFetch key outcome).text ≠ "" ∧
    (scraperApiFetch key outcome).content = "" := by
  by_cases hk : key = ""
  · simp [scraperApiFetch, hk]
  · cases outcome with
    | transportError msg =>
        refine ⟨by simp [scraperApiFetch, hk], ?_, by simp [scraperApiFetch, hk]⟩
        simp only [scraperApiFetch, hk, if_false]
        exact append_ne_empty _ _ (by decide)
    | response status title text =>
        by_cases hs : 400 ≤ status
        · refine ⟨by simp [scraperApiFetch, hk, hs], ?_, by simp [scraperApiFetch, hk, hs]⟩
          simp only [scraperApiFetch, hk, if_false, hs, decide_eq_true_eq, if_true]
          exact append_ne_empty _ _ (by decide)
        · simp [scraperApiFetch, hk, hs] at h

/-- C2 counterexample: a primary render that returns an empty body and an
empty title is not flagged by the classifier (no CAPTCHA term occurs in
the empty strings), so processOne terminates success with empty
scraped_text — a terminal result where neither side of the claimed
exactly-one invariant holds. -/
theorem terminal_invariant_counterexample :
    processOne { apivoidKey := "k", scraperKey := "" }
      { normalized := some "https://example.com/", host := some "example.com",
        apivoid := .response 200 none true false,
        render := .ok { ok := true, reason := "", text := "",
                        httpStatus := some 200, title := "", content := "" },
        fallback := none } "https://example.com/"
      = .ok { status := "success", url_input := "https://example.com/",
              failure_reason := "", failure_text := "", scraped_text := "" } ∧
    claimedExclusive
      { status := "success", url_input := "https://example.com/",
        failure_reason := "", failure_text := "", scraped_text := "" } = false := by
  exact ⟨rfl, by decide⟩

/-- C2 amended: for every terminal result of the pipeline, the status is
success or failure; every failure carries a non-empty failure_reason and a
non-empty failure_text with empty scraped_text; every success carries
empty failure fields.  The original never-neither half fails only in one
way: a success's scraped_text is the fetched text and is empty when the
render produced empty unflagged content. -/
theorem terminal_result_fields (cfg : Config) (env : PipelineEnv) (u : String)
    (r : UrlResult) (h : processOne cfg env u = .ok r) :
    (r.status = "success" ∨ r.status = "failure") ∧
    (r.status = "failure" →
      r.failure_reason ≠ "" ∧ r.failure_text ≠ "" ∧ r.scraped_text = "") ∧
    (r.status = "success" → r.failure_reason = "" ∧ r.failure_text = "") := by
  unfold processOne at h
  split at h
  · cases h
    exact ⟨Or.inr rfl,
      fun _ => ⟨by simp, append_ne_empty _ _ (append_ne_empty _ _ (by decide)), rfl⟩,
      fun hs => by simp at hs⟩
  · split at h
    · rename_i reason text heq
      cases h
      obtain ⟨hr, ht⟩ := apivoidCheck_fail_fields _ _ _ _ _ heq
      exact ⟨Or.inr rfl, fun _ => ⟨hr, ht, rfl⟩, fun hs => by simp at hs⟩
    · simp only [] at h
      split at h
      · cases h
        exact ⟨Or.inr rfl,
          fun _ => ⟨by simp, jsOr_ne_empty _ _ (by decide), rfl⟩,
          fun hs => by simp at hs⟩
      · split at h
        · cases h
          exact ⟨Or.inl rfl, fun hf => by simp at hf, fun _ => ⟨rfl, rfl⟩⟩
        · split at h
          · cases h
          · rename_i outcome heqfb
            split at h
            · rename_i hnotok
              cases h
              have hok : (scraperApiFetch cfg.scraperKey outcome).ok = false := by
                simpa using hnotok
              obtain ⟨hr, ht, _⟩ := scraperApiFetch_fail_fields _ _ hok
              refine ⟨Or.inr rfl, fun _ => ⟨?_, jsOr_ne_empty _ _ (by decide), rfl⟩,
                fun hs => by simp at hs⟩
              show jsOr (scraperApiFetch cfg.scraperKey outcome).reason "scraperapi" ≠ ""
              rw [hr]
              exact jsOr_ne_empty _ _ (by decide)
            · split at h
              · cases h
                exact ⟨Or.inr rfl, fun _ => ⟨by simp, by simp, rfl⟩,
                  fun hs => by simp at hs⟩
              · cases h
                exact ⟨Or.inl rfl, fun hf => by simp at hf,
                  fun _ => ⟨rfl, rfl⟩⟩

/-- Witness for the amended C2 theorem: the wrong_format terminal result of
a concrete run satisfies the stated field discipline. -/
theorem terminal_result_fields_witness :
    (wrongFormatSample.status = "success" ∨ wrongFormatSample.status = "failure") ∧
    (wrongFormatSample.status = "failure" →
      wrongFormatSample.failure_reason ≠ "" ∧ wrongFormatSample.failure_text ≠ "" ∧
      wrongFormatSample.scraped_text = "") ∧
    (wrongFormatSample.status = "success" →
      wrongFormatSample.failure_reason = "" ∧ wrongFormatSample.failure_text = "") := by
  exact terminal_result_fields { apivoidKey := "", scraperKey := "" }
    { normalized := none, host := none, apivoid := .transportError "",
      render := .error "", fallback := none } "foobar" wrongFormatSample rfl

/-- C4 counterexample: with the reputation credential absent, an input that
does not parse as an absolute http/https URL (normalizeUrl returns null,
as the WHATWG URL parser throws on "foobar") terminates with
failure_reason wrong_format, not apivoid_api_key — so the claimed outcome
is not independent of the URL for arbitrary input strings. -/
theorem missing_key_counterexample :
    processOne { apivoidKey := "", scraperKey := "" }
      { normalized := none, host := none, apivoid := .transportError "",
        render := .error "", fallback := none } "foobar"
      = .ok { status := "failure", url_input := "foobar",
              failure_reason := "wrong_format",
              failure_text := "The input url `foobar` is not properly formatted.",
              scraped_text := "" } ∧
    ("wrong_format" : String) ≠ "apivoid_api_key" := by
  exact ⟨rfl, by decide⟩

/-- C4 amended: when the reputation credential is absent, every URL that
passes format validation (normalizeUrl produced a value) terminates as
Failure with failure_reason apivoid_api_key and the credential-missing
message, independent of the host, of the reputation response and of the
rest of the environment; moreover apivoidCheck with the empty key returns
that failure for every host and every outcome without consulting the
response, so no network call is observable. -/
theorem missing_key_fails_apivoid (cfg : Config) (env : PipelineEnv)
    (u nu : String) (hkey : cfg.apivoidKey = "") (hn : env.normalized = some nu) :
    processOne cfg env u =
      .ok { status := "failure", url_input := u,
            failure_reason := "apivoid_api_key",
            failure_text := "APIVoid API key is missing.", scraped_text := "" } ∧
    (∀ (host : Option String) (o : ApivoidOutcome),
      apivoidCheck "" host o =
        .fail "apivoid_api_key" "APIVoid API key is missing.") := by
  constructor
  · unfold processOne
    rw [hn]
    have hfail : apivoidCheck cfg.apivoidKey env.host env.apivoid =
        .fail "apivoid_api_key" "APIVoid API key is missing." := by
      unfold apivoidCheck
      rw [if_pos hkey]
    rw [hfail]
  · intro host o
    unfold apivoidCheck
    rw [if_pos rfl]

/-- Witness for the amended C4 theorem at a concrete URL and environment. -/
theorem missing_key_fails_apivoid_witness :
    processOne { apivoidKey := "", scraperKey := "sk" }
      { normalized := some "https://example.com/", host := some "example.com",
        apivoid := .response 200 none true false,
        render := .ok { ok := true, reason := "", text := "",
                        httpStatus := some 200, title := "t", content := "c" },
        fallback := none } "https://example.com" =
      .ok { status := "failure", url_input := "https://example.com",
            failure_reason := "apivoid_api_key",
            failure_text := "APIVoid API key is missing.", scraped_text := "" } := by
  exact (missing_key_fails_apivoid { apivoidKey := "", scraperKey := "sk" }
    { normalized := some "https://example.com/", host := some "example.com",
      apivoid := .response 200 none true false,
      render := .ok { ok := true, reason := "", text := "",
                      httpStatus := some 200, title := "t", content := "c" },
      fallback := none } "https://example.com" "https://example.com/" rfl rfl).1

/-- C1: the per-URL pipeline does not always convert failures into terminal
results.  When the primary render succeeds but is flagged (here: a short
CAPTCHA text) and the 60-second deadline then fires while the ScraperAPI
fallback is still pending, the race rejection at server.js line 406 has no
surrounding try/catch, so processOne raises "timeout" past its boundary
instead of returning a terminal Failure; Promise.all over the batch then
rejects as well. -/
theorem fallback_timeout_escapes :
    processOne { apivoidKey := "k", scraperKey := "sk" }
      { normalized := some "https://example.com/", host := some "example.com",
        apivoid := .response 200 none true false,
        render := .ok { ok := true, reason := "", text := "",
                        httpStatus := some 200, title := "",
                        content := "please complete the captcha" },
        fallback := none } "https://example.com/"
      = .error "timeout" := rfl

/-- C3 counterexample: the handler validates only that urls is an array,
never element types, so an array holding the number 42 — not a sequence of
strings — is accepted and schedules one pipeline instead of being
rejected. -/
theorem batch_reject_counterexample :
    batchScrape (.array [JVal.jnum 42]) = .accepted [JVal.jnum 42] ∧
    (JVal.jnum 42).isStr = false := by
  exact ⟨rfl, rfl⟩

/-- C3 amended: the batch handler rejects the whole request, running zero
pipelines, exactly when the urls field is not an array or when the
deduplicated element count exceeds MAX_URLS_PER_REQUEST; element types are
not inspected (non-string items flow into pipelines).  In particular a
batch of 51 distinct URL strings is rejected wholesale. -/
theorem batch_reject_iff (items : List JVal) :
    batchScrape .notArray = .rejected "Body must be \x7b urls: string[] \x7d" ∧
    (MAX_URLS_PER_REQUEST < (dedupFirst items).length →
      batchScrape (.array items) = .rejected "Too many URLs; max 50.") ∧
    ((dedupFirst items).length ≤ MAX_URLS_PER_REQUEST →
      batchScrape (.array items) = .accepted (dedupFirst items)) ∧
    batchScrape
      (.array ((List.range 51).map (fun i => JVal.jstr (toString i)))) =
      .rejected "Too many URLs; max 50." := by
  refine ⟨rfl, ?_, ?_, by decide⟩
  · intro hgt
    unfold batchScrape
    simp only [decide_eq_true_eq]
    rw [if_pos hgt]
    rfl
  · intro hle
    unfold batchScrape
    simp only [decide_eq_true_eq]
    rw [if_neg (Nat.not_lt.mpr hle)]

/-- Witness for the amended C3 theorem: a two-element batch with one
duplicate is accepted with a single unique entry. -/
theorem batch_reject_iff_witness :
    batchScrape (.array [JVal.jstr "a", JVal.jstr "a"]) =
      .accepted (dedupFirst [JVal.jstr "a", JVal.jstr "a"]) := by
  exact (batch_reject_iff [JVal.jstr "a", JVal.jstr "a"]).2.2.1 (by decide)

/-- C7: whenever the primary render succeeds but its content is flagged by
the classifier, the task's outcome is decided by the fallback fetcher
(here: the deadline does not fire, so the race resolves to the fetch): a
failed fallback fetch terminates Failure with reason scraperapi and the
fetcher's message; fallback content flagged again by the same classifier
terminates Failure(scraperapi); otherwise the task terminates Success and
its scraped_text is the fallback content (not the primary text). -/
theorem fallback_routing (cfg : Config) (env : PipelineEnv) (u nu : String)
    (outcome : ScraperOutcome)
    (hn : env.normalized = some nu)
    (hapi : apivoidCheck cfg.apivoidKey env.host env.apivoid = .ok)
    (hok : (renderResultOf env).ok = true)
    (hflag : looksLikeCaptcha (renderResultOf env).content (renderResultOf env).title = true)
    (hfb : env.fallback = some outcome) :
    ((scraperApiFetch cfg.scraperKey outcome).ok = false →
      processOne cfg env u =
        .ok { status := "failure", url_input := u,
              failure_reason := "scraperapi",
              failure_text := (scraperApiFetch cfg.scraperKey outcome).text,
              scraped_text := "" }) ∧
    ((scraperApiFetch cfg.scraperKey outcome).ok = true →
      looksLikeCaptcha (scraperApiFetch cfg.scraperKey outcome).content
        (scraperApiFetch cfg.scraperKey outcome).title = true →
      processOne cfg env u =
        .ok { status := "failure", url_input := u,
              failure_reason := "scraperapi",
              failure_text := "ScraperAPI returned CAPTCHA/short content.",
              scraped_text := "" }) ∧
    ((scraperApiFetch cfg.scraperKey outcome).ok = true →
      looksLikeCaptcha (scraperApiFetch cfg.scraperKey outcome).content
        (scraperApiFetch cfg.scraperKey outcome).title = false →
      processOne cfg env u =
        .ok { status := "success", url_input := u,
              failure_reason := "", failure_text := "",
              scraped_text := (scraperApiFetch cfg.scraperKey outcome).content }) := by
  refine ⟨?_, ?_, ?_⟩
  · intro hfail
    obtain ⟨hr, ht, _⟩ := scraperApiFetch_fail_fields cfg.scraperKey outcome hfail
    unfold processOne
    rw [hn, hapi, hfb]
    simp [hok, hflag, hfail, hr, ht, jsOr]
  · intro hfok hflag2
    unfold processOne
    rw [hn, hapi, hfb]
    simp [hok, hflag, hfok, hflag2]
  · intro hfok hflag2
    unfold processOne
    rw [hn, hapi, hfb]
    simp [hok, hflag, hfok, hflag2]

/-- Witness for C7: a concrete flagged primary render whose fallback fetch
returns clean content makes the task succeed with the fallback text. -/
theorem fallback_routing_witness :
    processOne { apivoidKey := "k", scraperKey := "sk" }
      { normalized := some "https://example.com/", host := some "example.com",
        apivoid := .response 200 none true false,
        render := .ok { ok := true, reason := "", text := "",
                        httpStatus := some 200, title := "",
                        content := "please complete the captcha" },
        fallback := some (.response 200 ("Example") ("welcome to the example homepage")) }
      "https://example.com/"
      = .ok { status := "success", url_input := "https://example.com/",
              failure_reason := "", failure_text := "",
              scraped_text := "welcome to the example homepage" } := by
  exact (fallback_routing { apivoidKey := "k", scraperKey := "sk" }
    { normalized := some "https://example.com/", host := some "example.com",
      apivoid := .response 200 none true false,
      render := .ok { ok := true, reason := "", text := "",
                      httpStatus := some 200, title := "",
                      content := "please complete the captcha" },
      fallback := some (.response 200 ("Example") ("welcome to the example homepage")) }
    "https://example.com/" "https://example.com/"
    (.response 200 ("Example") ("welcome to the example homepage"))
    rfl rfl rfl (by decide) rfl).2.2 rfl (by decide)

/-- Invariant preservation for one limiter step: with a positive limit, a
step never pushes the number of in-flight runs above the limit. -/
theorem limStep_active_le (limit : Nat) (hl : 1 ≤ limit) (s : LimState)
    (e : LimEvent) (h : s.active ≤ limit) :
    (limStep limit s e).1.active ≤ limit := by
  cases e with
  | submit id =>
      by_cases hlt : s.active < limit
      · simp [limStep, hlt]
        omega
      · simp [limStep, hlt]
        omega
  | finish =>
      cases hq : s.q with
      | nil =>
          simp [limStep, hq]
          omega
      | cons t rest =>
          simp [limStep, hq]
          omega

/-- Folding limiter steps from a state within the bound stays within the
bound. -/
theorem limRun_le_aux (limit : Nat) (hl : 1 ≤ limit) :
    ∀ (evs : List LimEvent) (s : LimState), s.active ≤ limit →
      (evs.foldl (fun s e => (limStep limit s e).1) s).active ≤ limit := by
  intro evs
  induction evs with
  | nil =>
      intro s h
      simpa using h
  | cons e es ih =>
      intro s h
      simpa using ih _ (limStep_active_le limit hl s e h)

/-- C8: under the limiter with the CONCURRENCY bound, at no instant are
more than CONCURRENCY pipeline runs active (for every event sequence from
the idle state); a submission at capacity starts nothing and appends to
the queue tail, a submission under capacity starts immediately, and a
completion with a non-empty queue starts exactly the queue head, removing
it — FIFO handoff of freed capacity. -/
theorem limiter_bound_and_fifo :
    (∀ evs : List LimEvent, (limRun CONCURRENCY evs).active ≤ CONCURRENCY) ∧
    (∀ (s : LimState) (id : Nat), CONCURRENCY ≤ s.active →
      limStep CONCURRENCY s (.submit id) =
        ({ active := s.active, q := s.q ++ [id] }, none)) ∧
    (∀ (s : LimState) (id : Nat), s.active < CONCURRENCY →
      limStep CONCURRENCY s (.submit id) =
        ({ active := s.active + 1, q := s.q }, some id)) ∧
    (∀ (s : LimState) (t : Nat) (rest : List Nat), s.q = t :: rest →
      limStep CONCURRENCY s .finish =
        ({ active := s.active - 1 + 1, q := rest }, some t)) := by
  refine ⟨?_, ?_, ?_, ?_⟩
  · intro evs
    exact limRun_le_aux CONCURRENCY (by decide) evs { active := 0, q := [] } (by decide)
  · intro s id hge
    simp [limStep, Nat.not_lt.mpr hge]
  · intro s id hlt
    simp [limStep, hlt]
  · intro s t rest hq
    simp [limStep, hq]

/-- Witness for C8 at concrete states and event sequences. -/
theorem limiter_bound_and_fifo_witness :
    (limRun CONCURRENCY [.submit 1, .submit 2, .submit 3]).active ≤ CONCURRENCY ∧
    limStep CONCURRENCY { active := 2, q := [] } (.submit 3) =
      ({ active := 2, q := [3] }, none) ∧
    limStep CONCURRENCY { active := 1, q := [] } (.submit 9) =
      ({ active := 2, q := [] }, some 9) ∧
    limStep CONCURRENCY { active := 2, q := [3, 4] } .finish =
      ({ active := 2, q := [4] }, some 3) := by
  refine ⟨limiter_bound_and_fifo.1 _,
    limiter_bound_and_fifo.2.1 { active := 2, q := [] } 3 (by decide),
    limiter_bound_and_fifo.2.2.1 { active := 1, q := [] } 9 (by decide), ?_⟩
  have hfin := limiter_bound_and_fifo.2.2.2 { active := 2, q := [3, 4] } 3 [4] rfl
  simpa using hfin

/-- Membership in the insertion-ordered deduplication: exactly the elements
of the input that are not already in the seen accumulator. -/
theorem dedupFirstAux_mem {α : Type} [DecidableEq α] (u : α) :
    ∀ (l seen : List α), u ∈ dedupFirstAux seen l ↔ u ∈ l ∧ u ∉ seen := by
  intro l
  induction l with
  | nil =>
      intro seen
      simp [dedupFirstAux]
  | cons x xs ih =>
      intro seen
      by_cases hx : x ∈ seen
      · rw [dedupFirstAux, if_pos hx, ih seen]
        constructor
        · rintro ⟨hu, hns⟩
          exact ⟨List.mem_cons_of_mem x hu, hns⟩
        · rintro ⟨hu, hns⟩
          rcases List.mem_cons.mp hu with rfl | hu
          · exact absurd hx hns
          · exact ⟨hu, hns⟩
      · rw [dedupFirstAux, if_neg hx]
        constructor
        · intro hm
          rcases List.mem_cons.mp hm with rfl | hm
          · exact ⟨List.mem_cons_self _ _, hx⟩
          · have hh := (ih (x :: seen)).mp hm
            exact ⟨List.mem_cons_of_mem x hh.1,
              fun hc => hh.2 (List.mem_cons_of_mem x hc)⟩
        · rintro ⟨hu, hns⟩
          rcases List.mem_cons.mp hu with rfl | hu
          · exact List.mem_cons_self _ _
          · by_cases hux : u = x
            · subst hux
              exact List.mem_cons_self _ _
            · exact List.mem_cons_of_mem x
                ((ih (x :: seen)).mpr ⟨hu, by simp [List.mem_cons, hux, hns]⟩)

/-- The insertion-ordered deduplication never repeats an element. -/
theorem dedupFirstAux_nodup {α : Type} [DecidableEq α] :
    ∀ (l seen : List α), (dedupFirstAux seen l).Nodup := by
  intro l
  induction l with
  | nil =>
      intro seen
      simp [dedupFirstAux]
  | cons x xs ih =>
      intro seen
      by_cases hx : x ∈ seen
      · rw [dedupFirstAux, if_pos hx]
        exact ih seen
      · rw [dedupFirstAux, if_neg hx]
        refine List.nodup_cons.mpr ⟨?_, ih (x :: seen)⟩
        intro hc
        exact ((dedupFirstAux_mem x xs (x :: seen)).mp hc).2 (List.mem_cons_self x seen)

/-- The insertion-ordered deduplication lists elements by strictly
increasing first-occurrence position in the input. -/
theorem dedupFirstAux_pairwise {α : Type} [DecidableEq α] :
    ∀ (l seen : List α),
      (dedupFirstAux seen l).Pairwise (fun a b => firstIdx l a < firstIdx l b) := by
  intro l
  induction l with
  | nil =>
      intro seen
      simp [dedupFirstAux]
  | cons x xs ih =>
      intro seen
      by_cases hx : x ∈ seen
      · rw [dedupFirstAux, if_pos hx]
        refine (ih seen).imp_of_mem ?_
        intro a b ha hb hr
        have ha2 := (dedupFirstAux_mem a xs seen).mp ha
        have hb2 := (dedupFirstAux_mem b xs seen).mp hb
        have hax : x ≠ a := fun hc => ha2.2 (hc ▸ hx)
        have hbx : x ≠ b := fun hc => hb2.2 (hc ▸ hx)
        rw [firstIdx, firstIdx, if_neg hax, if_neg hbx]
        omega
      · rw [dedupFirstAux, if_neg hx]
        refine List.pairwise_cons.mpr ⟨?_, ?_⟩
        · intro b hb
          have hb2 := (dedupFirstAux_mem b xs (x :: seen)).mp hb
          have hbx : x ≠ b := fun hc => hb2.2 (hc ▸ List.mem_cons_self x seen)
          rw [firstIdx, firstIdx, if_pos rfl, if_neg hbx]
          omega
        · refine (ih (x :: seen)).imp_of_mem ?_
          intro a b ha hb hr
          have ha2 := (dedupFirstAux_mem a xs (x :: seen)).mp ha
          have hb2 := (dedupFirstAux_mem b xs (x :: seen)).mp hb
          have hax : x ≠ a := fun hc => ha2.2 (hc ▸ List.mem_cons_self x seen)
          have hbx : x ≠ b := fun hc => hb2.2 (hc ▸ List.mem_cons_self x seen)
          rw [firstIdx, firstIdx, if_neg hax, if_neg hbx]
          omega

/-- Terminal results always echo the input URL in url_input. -/
theorem processOne_url_input (cfg : Config) (env : PipelineEnv) (u : String)
    (r : UrlResult) (h : processOne cfg env u = .ok r) : r.url_input = u := by
  unfold processOne at h
  split at h
  · cases h
    rfl
  · split at h
    · cases h
      rfl
    · simp only [] at h
      split at h
      · cases h
        rfl
      · split at h
        · cases h
          rfl
        · split at h
          · cases h
          · split at h
            · cases h
              rfl
            · split at h
              · cases h
                rfl
              · cases h
                rfl

/-- C9: for every batch of strings, the scheduler runs exactly the
deduplicated unique inputs: the task list has no duplicates, contains an
element iff the input did, is ordered by strictly increasing first
occurrence in the input (independent of completion order, since results
are assembled positionally), each unique input contributes exactly one
entry (a URL repeated three times keeps a single task), and each terminal
result carries its input in url_input. -/
theorem batch_dedup_order (l : List String) (cfg : Config)
    (env : String → PipelineEnv) :
    (dedupFirst l).Nodup ∧
    (∀ u, u ∈ dedupFirst l ↔ u ∈ l) ∧
    (dedupFirst l).Pairwise (fun a b => firstIdx l a < firstIdx l b) ∧
    (∀ u, u ∈ l → (dedupFirst l).count u = 1) ∧
    batchResults cfg env l = (dedupFirst l).map (fun u => processOne cfg (env u) u) ∧
    (∀ u r, processOne cfg (env u) u = .ok r → r.url_input = u) ∧
    dedupFirst ["https://a.com", "https://a.com", "https://a.com"] = ["https://a.com"] := by
  have hmem : ∀ u, u ∈ dedupFirst l ↔ u ∈ l := by
    intro u
    unfold dedupFirst
    rw [dedupFirstAux_mem u l []]
    simp
  refine ⟨dedupFirstAux_nodup l [], hmem, dedupFirstAux_pairwise l [], ?_, rfl, ?_, by decide⟩
  · intro u hu
    exact List.count_eq_one_of_mem (dedupFirstAux_nodup l []) ((hmem u).mpr hu)
  · intro u r h
    exact processOne_url_input cfg (env u) u r h

/-- Witness for C9: a concrete batch with a duplicate keeps exactly one
entry for the repeated URL. -/
theorem batch_dedup_order_witness :
    (dedupFirst ["https://a.com", "https://b.com", "https://a.com"]).count
      "https://a.com" = 1 := by
  exact (batch_dedup_order ["https://a.com", "https://b.com", "https://a.com"]
    { apivoidKey := "", scraperKey := "" }
    (fun _ => { normalized := none, host := none, apivoid := .transportError "",
                render := .error "", fallback := none })).2.2.2.1
    "https://a.com" (by decide)
